import Mathlib

/-!
# PathHunter scanning engine — shallow embedding

A shallow embedding of the engineering core of the PathHunter directory
scanner (`scanner.py` and the extension-parsing part of `app.py`), together
with theorems settling the specification claims about it.

Python strings are modelled as Lean `String`s; the Python `str` helper
methods used by the code (`strip`, `lstrip('.')`, `rstrip('/')`,
`startswith`, `split(',')`) are re-implemented structurally on the
underlying character list so that every definition evaluates inside the
kernel.  `urllib.parse.urlparse` is modelled by `urlparse`, restricted to
the two fields the scanner reads (`netloc` and `path`), following the
splitting rules of CPython's `urlsplit`.

Effectful parts are made explicit: the HTTP response (or transport error)
consumed by `DirScanner.test_url` is a `ProbeOutcome` parameter, the clock
is a `now : String` parameter, a wordlist file is `Option (List String)`
(`none` = unreadable source), and the mutable scanner state
(`scanned` counter, `results` list) is threaded as a `ScanState`.
-/

namespace PathHunter

/-! ## Python string primitives -/

/-- The characters Python's `str.strip()` removes. -/
def isPySpace (c : Char) : Bool :=
  c == ' ' || c == '\t' || c == '\n' || c == '\r' || c == '\x0b' || c == '\x0c'

/-- Python `s.strip()`: remove leading and trailing whitespace. -/
def pyStrip (s : String) : String :=
  ⟨((s.data.dropWhile isPySpace).reverse.dropWhile isPySpace).reverse⟩

/-- Python `s.lstrip('.')`: remove every leading `'.'`. -/
def pyLstripDot (s : String) : String :=
  ⟨s.data.dropWhile (· == '.')⟩

/-- Python `s.rstrip('/')`: remove every trailing `'/'`. -/
def pyRstripSlash (s : String) : String :=
  ⟨(s.data.reverse.dropWhile (· == '/')).reverse⟩

/-- Python `s.startswith(c)` for a one-character prefix. -/
def pyStartswithChar (c : Char) (s : String) : Bool :=
  s.data.head? == some c

/-- Split a character list at every occurrence of `sep`
(Python `s.split(sep)` for a one-character separator: empty pieces kept,
`"".split(sep) = [""]`). -/
def splitOnChar (sep : Char) : List Char → List (List Char)
  | [] => [[]]
  | c :: rest =>
    if c == sep then [] :: splitOnChar sep rest
    else
      match splitOnChar sep rest with
      | [] => [[c]]
      | g :: gs => (c :: g) :: gs

/-- Python `s.split(',')`. -/
def pySplitComma (s : String) : List String :=
  (splitOnChar ',' s.data).map (fun l => ⟨l⟩)

/-! ## `urllib.parse.urlparse`, restricted to `netloc` and `path`

CPython's `urlsplit` first strips a scheme (a leading run of
letters/digits/`+`/`-`/`.` beginning with a letter, up to the first `:`),
then, if the remainder starts with `//`, reads the netloc up to the first
`/`, `?` or `#`; the path is what is left before the query/fragment. -/

/-- Characters allowed in a URL scheme. -/
def schemeChar (c : Char) : Bool :=
  c.isAlpha || c.isDigit || c == '+' || c == '-' || c == '.'

/-- Drop a leading `scheme:` if present (CPython `urlsplit` scheme rule). -/
def dropScheme (l : List Char) : List Char :=
  let pre := l.takeWhile (fun c => ! (c == ':'))
  if pre.length < l.length && ! pre.isEmpty &&
      (pre.headD ':').isAlpha && pre.all schemeChar then
    l.drop (pre.length + 1)
  else l

/-- Character terminating a netloc. -/
def netlocEnd (c : Char) : Bool :=
  c == '/' || c == '?' || c == '#'

/-- The `netloc` and `path` components of `urlsplit`. -/
def urlsplitNetlocPath (s : String) : String × String :=
  let rest := dropScheme s.data
  let (netloc, rest2) :=
    if rest.take 2 = ['/', '/'] then
      ((rest.drop 2).takeWhile (fun c => ! netlocEnd c),
       (rest.drop 2).dropWhile (fun c => ! netlocEnd c))
    else ([], rest)
  (⟨netloc⟩, ⟨(rest2.takeWhile (fun c => ! (c == '#'))).takeWhile (fun c => ! (c == '?'))⟩)

/-- `urlparse(s).netloc`. -/
def urlparseNetloc (s : String) : String := (urlsplitNetlocPath s).1

/-- `urlparse(s).path`. -/
def urlparsePath (s : String) : String := (urlsplitNetlocPath s).2

/-! ## The scanner (`scanner.py`) -/

/-- The configuration part of `DirScanner.__init__`: the target with its
trailing slashes stripped, and the extension list (`extensions or ['']`,
so `None`/`[]` becomes `['']`). -/
structure DirScanner where
  target : String
  extensions : List String
deriving DecidableEq

/-- `DirScanner.__init__(target, ..., extensions)`; `none` models Python
`extensions=None`. -/
def DirScanner.init (target : String) (extensions : Option (List String)) : DirScanner :=
  { target := pyRstripSlash target
    extensions :=
      match extensions with
      | none => [""]
      | some [] => [""]
      | some l => l }

/-- One wordlist source: `none` models a file `open` failed on, `some lines`
a readable file with the given lines. -/
def WordlistSource := Option (List String)

/-- The per-line filter of `DirScanner.load_wordlists`: keep `path` when it
is non-empty and does not start with `'#'` (after stripping). -/
def keepPath (p : String) : Bool :=
  ! (p == "") && ! pyStartswithChar '#' p

/-- `DirScanner.load_wordlists`: strip each line of each readable source,
keep non-empty non-comment lines, skip unreadable sources, and deduplicate
(`list(set(paths))`). -/
def load_wordlists (sources : List (Option (List String))) : List String :=
  ((sources.map (fun src =>
      match src with
      | none => []
      | some lines => (lines.map pyStrip).filter keepPath)).flatten).dedup

/-- `DirScanner.generate_urls`: for each path (normalised to start with
`/`) and each extension, emit `target + path + ext`. -/
def DirScanner.generate_urls (sc : DirScanner) (paths : List String) : List String :=
  (paths.map (fun path =>
    let path := if ! pyStartswithChar '/' path then "/" ++ path else path
    sc.extensions.map (fun ext =>
      if ! (ext == "") then sc.target ++ path ++ ext else sc.target ++ path))).flatten

/-- An HTTP response as `test_url` reads it: status code, `len(response.content)`,
and the `Location` header when present. -/
structure Response where
  status : Nat
  contentLength : Nat
  location : Option String
deriving DecidableEq

/-- What a probe of one URL produces: a response, or a raised transport
exception (`Timeout`, `ConnectionError`, `TooManyRedirects`, other). -/
inductive ProbeOutcome where
  | response (r : Response)
  | transportError
deriving DecidableEq

/-- The dict appended to `self.results`. -/
structure ScanResult where
  url : String
  status : Nat
  size : Nat
  redirect : Option String
  timestamp : String
deriving DecidableEq

/-- The mutable scanner state `test_url` touches: the `scanned` counter and
the `results` list. -/
structure ScanState where
  scanned : Nat
  results : List ScanResult
deriving DecidableEq

/-- The statuses for which `test_url` reads the `Location` header. -/
def redirectFamily : List Nat := [301, 302, 303, 307, 308]

/-- The statuses `test_url` always records. -/
def includeCodes : List Nat := [200, 201, 204, 401, 403, 405, 500, 503]

/-- The redirect-target paths treated as wildcard/homepage redirects. -/
def wildcardPaths : List String := ["/", "", "/index.html", "/index.php"]

/-- The early-return false-positive filter of `test_url`: a redirect target
pointing at a different (non-empty) domain, or whose path is one of the
wildcard paths. -/
def wildcardBlocked (url loc : String) : Bool :=
  let original_domain := urlparseNetloc url
  let redirect_domain := urlparseNetloc loc
  if ! (redirect_domain == "") && ! (redirect_domain == original_domain) then true
  else decide (urlparsePath loc ∈ wildcardPaths)

/-- The classification part of `test_url` (lines 82–139): which
`ScanResult`, if any, a response to `url` causes to be appended. -/
def classify (url : String) (r : Response) (now : String) : Option ScanResult :=
  let status_code := r.status
  let content_length := r.contentLength
  let redirect_location : Option String :=
    if status_code ∈ redirectFamily then r.location else none
  let blocked : Bool :=
    match redirect_location with
    | some loc => wildcardBlocked url loc
    | none => false
  if blocked then none
  else if status_code ∈ includeCodes then
    some { url := url, status := status_code, size := content_length,
           redirect := redirect_location, timestamp := now }
  else if status_code ∈ [301, 302] then
    match redirect_location with
    | some loc =>
      if ! (urlparsePath loc == urlparsePath url) then
        some { url := url, status := status_code, size := content_length,
               redirect := redirect_location, timestamp := now }
      else none
    | none => none
  else none

/-- `DirScanner.test_url` as a state transformer.  A transport error raises
before `self.scanned += 1`, is caught at the bottom of the function, and
leaves the state untouched; a response increments `scanned` and appends
the classified result, if any. -/
def test_url (url : String) (outcome : ProbeOutcome) (now : String)
    (st : ScanState) : ScanState :=
  match outcome with
  | .transportError => st
  | .response r =>
    let st := { st with scanned := st.scanned + 1 }
    match classify url r now with
    | some result => { st with results := st.results ++ [result] }
    | none => st

/-! ## Extension parsing (`app.py`, `start_scan`) -/

/-- The extension parsing of `start_scan`:
`extensions = data.get('extensions', '').strip()`, then if non-empty,
`[''] + ['.' + ext.strip().lstrip('.') for ext in extensions.split(',')]`,
else `['']`. -/
def parse_extensions (s : String) : List String :=
  let extensions := pyStrip s
  if extensions == "" then [""]
  else "" :: (pySplitComma extensions).map (fun ext => "." ++ pyLstripDot (pyStrip ext))

/-! ## Report writing (`DirScanner.save_report`)

`save_report` is modelled by the list of text lines it writes; the two
`datetime.now()` reads are the parameters `scanDate` and `endDate`. -/

/-- A line of 80 `=` characters. -/
def eq80 : String := ⟨List.replicate 80 '='⟩

/-- Python `f"{s:>8}"`: right-align in width 8. -/
def padLeft8 (s : String) : String :=
  ⟨List.replicate (8 - s.length) ' ' ++ s.data⟩

/-- The sort key order of `sorted(self.results, key=lambda x: (x['status'], x['url']))`:
status code first, then URL. -/
def resultLe (a b : ScanResult) : Bool :=
  decide (a.status < b.status) || (a.status == b.status && decide (a.url ≤ b.url))

/-- The sorted result list `save_report` writes. -/
def sorted_results (results : List ScanResult) : List ScanResult :=
  results.mergeSort resultLe

/-- The lines written for one result entry. -/
def resultLines (r : ScanResult) : List String :=
  ["[" ++ toString r.status ++ "] " ++ padLeft8 (toString r.size) ++ "B  " ++ r.url]
    ++ (match r.redirect with
        | some loc => ["    Redirect: " ++ loc]
        | none => [])
    ++ ["    Timestamp: " ++ r.timestamp, ""]

/-- The full report `save_report` writes, as a list of lines. -/
def save_report_lines (target scanDate : String) (total : Nat)
    (results : List ScanResult) (endDate : String) : List String :=
  [eq80,
   "PathHunter Scan Report",
   "Target: " ++ target,
   "Scan Date: " ++ scanDate,
   "Total URLs Tested: " ++ toString total,
   "Results Found: " ++ toString results.length,
   eq80,
   ""]
  ++ (if results.isEmpty then ["No results found."]
      else (sorted_results results).flatMap resultLines)
  ++ ["", eq80, "Scan completed: " ++ endDate]

/-! ## Helper lemmas -/

/-- The head surviving a `dropWhile` fails the predicate. -/
theorem head?_dropWhile_false {α : Type} (p : α → Bool) (l : List α) {c : α}
    (h : (l.dropWhile p).head? = some c) : p c = false := by
  induction l with
  | nil => simp [List.dropWhile] at h
  | cons a t ih =>
    rw [List.dropWhile] at h
    by_cases hp : p a
    · rw [hp] at h
      exact ih h
    · rw [Bool.eq_false_iff.mpr hp] at h
      simp only [List.head?_cons, Option.some.injEq] at h
      rw [← h]
      exact Bool.eq_false_iff.mpr hp

/-- `resultLe` spelt out as a proposition. -/
theorem resultLe_iff (a b : ScanResult) :
    resultLe a b = true ↔
      a.status < b.status ∨ (a.status = b.status ∧ a.url ≤ b.url) := by
  simp [resultLe, Bool.or_eq_true, Bool.and_eq_true, decide_eq_true_eq, beq_iff_eq]

/-- `resultLe` is transitive. -/
theorem resultLe_trans (a b c : ScanResult)
    (h1 : resultLe a b = true) (h2 : resultLe b c = true) : resultLe a c = true := by
  rw [resultLe_iff] at h1 h2 ⊢
  rcases h1 with h1 | ⟨h1, h1'⟩ <;> rcases h2 with h2 | ⟨h2, h2'⟩
  · exact Or.inl (h1.trans h2)
  · exact Or.inl (h2 ▸ h1)
  · exact Or.inl (h1 ▸ h2)
  · exact Or.inr ⟨h1.trans h2, le_trans h1' h2'⟩

/-- `resultLe` is total. -/
theorem resultLe_total (a b : ScanResult) :
    (resultLe a b || resultLe b a) = true := by
  rw [Bool.or_eq_true, resultLe_iff, resultLe_iff]
  rcases Nat.lt_trichotomy a.status b.status with h | h | h
  · exact Or.inl (Or.inl h)
  · rcases le_total a.url b.url with h' | h'
    · exact Or.inl (Or.inr ⟨h, h'⟩)
    · exact Or.inr (Or.inr ⟨h.symm, h'⟩)
  · exact Or.inr (Or.inl h)

/-- Statuses in `includeCodes` are not in `redirectFamily`. -/
theorem includeCodes_disjoint_redirectFamily :
    ∀ s ∈ includeCodes, s ∉ redirectFamily := by decide

/-- Statuses 301 and 302 are in `redirectFamily`. -/
theorem mem_301_302_redirectFamily : ∀ s ∈ [301, 302], s ∈ redirectFamily := by decide

/-- The generated URL list has exactly `|paths| * |extensions|` entries. -/
theorem generate_urls_length (sc : DirScanner) (paths : List String) :
    (sc.generate_urls paths).length = paths.length * sc.extensions.length := by
  induction paths with
  | nil => simp [DirScanner.generate_urls]
  | cons p t ih =>
    simp only [DirScanner.generate_urls, List.map_cons, List.flatten_cons,
      List.length_append, List.length_map, List.length_cons] at ih ⊢
    rw [ih]
    ring

/-! ## Claim theorems -/

/-- Claim C1 (code bug): the claim says every dequeued probe increments the
`scanned` counter exactly once, including probes ending in a transport
error.  In the code the increment `self.scanned += 1` sits after
`self.session.get(...)`, so a raised transport exception skips it: a
transport-error probe leaves the whole state (counter and results)
untouched, while a probe that gets a response increments the counter
exactly once. -/
theorem test_url_transport_error_not_counted :
    (∀ url now st, test_url url .transportError now st = st)
    ∧ (test_url "http://example.test/admin" .transportError "ts" ⟨0, []⟩).scanned = 0
    ∧ (∀ url r now st, (test_url url (.response r) now st).scanned = st.scanned + 1) := by
  refine ⟨fun url now st => rfl, rfl, ?_⟩
  intro url r now st
  simp only [test_url]
  cases classify url r now <;> rfl

/-- Claim C2: for a non-empty set of loaded (hence unique) paths and a
non-empty extension list, the generated URL list has size exactly
`|unique paths| × |extensions|`. -/
theorem generate_urls_card (sc : DirScanner) (sources : List (Option (List String)))
    (h1 : load_wordlists sources ≠ []) (h2 : sc.extensions ≠ []) :
    (sc.generate_urls (load_wordlists sources)).length
      = (load_wordlists sources).length * sc.extensions.length :=
  generate_urls_length sc (load_wordlists sources)

/-- Witness for C2: one readable wordlist with two paths and one extension. -/
theorem generate_urls_card_witness :
    load_wordlists [some ["admin", "login"]] ≠ []
    ∧ (DirScanner.init "http://example.test" (some [".php"])).extensions ≠ []
    ∧ ((DirScanner.init "http://example.test" (some [".php"])).generate_urls
        (load_wordlists [some ["admin", "login"]])).length
      = (load_wordlists [some ["admin", "login"]]).length
          * (DirScanner.init "http://example.test" (some [".php"])).extensions.length :=
  ⟨by decide, by decide,
    generate_urls_card (DirScanner.init "http://example.test" (some [".php"]))
      [some ["admin", "login"]] (by decide) (by decide)⟩

/-- Claim C3 (counterexample): a 301 probe of `/secret` whose redirect
target `/index.html` is present, relative (same host) and a different path
than the probed path is nevertheless excluded, because the wildcard-path
filter fires first — refuting the claimed "if and only if". -/
theorem redirect_301_wildcard_path_counterexample :
    (⟨301, 0, some "/index.html"⟩ : Response).location = some "/index.html"
    ∧ urlparseNetloc "/index.html" = ""
    ∧ urlparsePath "/index.html" ≠ urlparsePath "http://example.test/secret"
    ∧ classify "http://example.test/secret" ⟨301, 0, some "/index.html"⟩ "ts" = none :=
  ⟨rfl, by decide, by decide, by decide⟩

/-- Claim C3 (amended): a 301/302 probe outcome is recorded if and only if
a redirect target is present, the target is not rejected by the wildcard
filter (different non-empty host, or target path among `/`, `""`,
`/index.html`, `/index.php`), and the target path differs from the probed
path. -/
theorem redirect_301_302_included_iff (url : String) (r : Response) (now : String)
    (h : r.status = 301 ∨ r.status = 302) :
    (classify url r now).isSome = true ↔
      ∃ loc, r.location = some loc ∧ wildcardBlocked url loc = false
        ∧ urlparsePath loc ≠ urlparsePath url := by
  obtain ⟨s, n, loc⟩ := r
  simp only at h
  rcases h with rfl | rfl <;>
  · cases loc with
    | none => simp [classify, redirectFamily, includeCodes]
    | some l =>
      by_cases hb : wildcardBlocked url l = true
      · simp [classify, redirectFamily, includeCodes, hb]
      · rw [Bool.not_eq_true] at hb
        by_cases hp : urlparsePath l = urlparsePath url <;>
          simp [classify, redirectFamily, includeCodes, hb, hp]

/-- Witness for the amended C3: a 301 to a different same-host path is
recorded. -/
theorem redirect_301_302_included_iff_witness :
    (classify "http://example.test/secret" ⟨301, 7, some "/admin2"⟩ "ts").isSome = true :=
  (redirect_301_302_included_iff "http://example.test/secret" ⟨301, 7, some "/admin2"⟩
    "ts" (Or.inl rfl)).mpr ⟨"/admin2", rfl, by decide, by decide⟩

/-- Claim C4: a probe outcome with status 303, 307 or 308 never adds to the
result list, whatever its redirect target. -/
theorem redirect_303_307_308_never_recorded (url : String) (r : Response)
    (now : String) (st : ScanState) (h : r.status ∈ [303, 307, 308]) :
    (test_url url (.response r) now st).results = st.results := by
  obtain ⟨s, n, loc⟩ := r
  simp only [List.mem_cons, List.not_mem_nil, or_false] at h
  have hc : classify url ⟨s, n, loc⟩ now = none := by
    rcases h with rfl | rfl | rfl <;>
    · simp only [classify, redirectFamily, includeCodes]
      cases loc with
      | none => simp
      | some l =>
        by_cases hb : wildcardBlocked url l = true <;> simp [hb]
  simp [test_url, hc]

/-- Witness for C4: a 307 whose target is a different same-host path is
still dropped. -/
theorem redirect_303_307_308_never_recorded_witness :
    (test_url "http://example.test/secret" (.response ⟨307, 7, some "/admin2"⟩)
      "ts" ⟨0, []⟩).results = [] :=
  redirect_303_307_308_never_recorded "http://example.test/secret"
    ⟨307, 7, some "/admin2"⟩ "ts" ⟨0, []⟩ (by decide)

/-- Claim C5: a redirect-family probe outcome whose target points at a
different (non-empty) host, or whose target path is `/`, `""`,
`/index.html` or `/index.php`, is never recorded. -/
theorem wildcard_redirect_excluded (url loc now : String) (r : Response)
    (st : ScanState) (h1 : r.status ∈ redirectFamily) (h2 : r.location = some loc)
    (h3 : (urlparseNetloc loc ≠ "" ∧ urlparseNetloc loc ≠ urlparseNetloc url)
            ∨ urlparsePath loc ∈ wildcardPaths) :
    (test_url url (.response r) now st).results = st.results := by
  have hb : wildcardBlocked url loc = true := by
    rcases h3 with ⟨h3a, h3b⟩ | h3
    · simp [wildcardBlocked, h3a, h3b]
    · simp [wildcardBlocked]
      exact Or.inr h3
  have hc : classify url r now = none := by
    simp only [classify, h2, if_pos h1, hb]
    simp
  simp [test_url, hc]

/-- Witness for C5: the spec scenario — a 302 of `/secret` redirecting to
the site root is excluded. -/
theorem wildcard_redirect_excluded_witness :
    (test_url "http://example.test/secret"
      (.response ⟨302, 7, some "http://example.test/"⟩) "ts" ⟨0, []⟩).results = [] :=
  wildcard_redirect_excluded "http://example.test/secret" "http://example.test/"
    "ts" ⟨302, 7, some "http://example.test/"⟩ ⟨0, []⟩ (by decide) rfl
    (Or.inr (by decide))

/-- Claim C6: a probe outcome whose status is in
`{200, 201, 204, 401, 403, 405, 500, 503}` always appends exactly one
result, whatever `Location` header the response carries. -/
theorem include_codes_always_recorded (url : String) (r : Response) (now : String)
    (st : ScanState) (h : r.status ∈ includeCodes) :
    (test_url url (.response r) now st).results
      = st.results ++ [{ url := url, status := r.status, size := r.contentLength,
                         redirect := none, timestamp := now }] := by
  obtain ⟨s, n, loc⟩ := r
  simp only [includeCodes, List.mem_cons, List.not_mem_nil, or_false] at h
  have hc : classify url ⟨s, n, loc⟩ now
      = some { url := url, status := s, size := n, redirect := none, timestamp := now } := by
    rcases h with rfl | rfl | rfl | rfl | rfl | rfl | rfl | rfl <;>
      simp [classify, redirectFamily, includeCodes]
  simp [test_url, hc]

/-- Witness for C6: the spec scenario — a 403, even with a stray
cross-host `Location` header, is recorded. -/
theorem include_codes_always_recorded_witness :
    (test_url "http://example.test/secret"
      (.response ⟨403, 7, some "http://other.host/"⟩) "ts" ⟨0, []⟩).results
      = [⟨"http://example.test/secret", 403, 7, none, "ts"⟩] :=
  include_codes_always_recorded "http://example.test/secret"
    ⟨403, 7, some "http://other.host/"⟩ "ts" ⟨0, []⟩ (by decide)

/-- Claim C7: wordlist loading strips each line, keeps only non-empty
non-comment lines, deduplicates the result, skips an unreadable source
non-fatally, and the spec scenario `["admin", "#comment", "", "admin"]`
with extension list `[""]` yields exactly `http://example.test/admin`. -/
theorem load_wordlists_spec :
    (∀ sources, (load_wordlists sources).Nodup)
    ∧ (∀ sources, load_wordlists (none :: sources) = load_wordlists sources)
    ∧ (∀ sources p, p ∈ load_wordlists sources →
        p ≠ "" ∧ pyStartswithChar '#' p = false
          ∧ ∃ ls, some ls ∈ sources ∧ ∃ l ∈ ls, p = pyStrip l)
    ∧ (DirScanner.init "http://example.test" (some [""])).generate_urls
        (load_wordlists [some ["admin", "#comment", "", "admin"]])
        = ["http://example.test/admin"] := by
  refine ⟨fun sources => List.nodup_dedup _, fun sources => rfl, ?_, by decide⟩
  intro sources p hp
  simp only [load_wordlists, List.mem_dedup, List.mem_flatten, List.mem_map] at hp
  obtain ⟨l', ⟨src, hsrc, rfl⟩, hpl⟩ := hp
  cases src with
  | none => simp at hpl
  | some ls =>
    simp only [List.mem_filter, List.mem_map] at hpl
    obtain ⟨⟨l, hl, rfl⟩, hkeep⟩ := hpl
    simp only [keepPath, Bool.and_eq_true, Bool.not_eq_true', beq_eq_false_iff_ne] at hkeep
    exact ⟨hkeep.1, hkeep.2, ls, hsrc, l, hl, rfl⟩

/-- Claim C8: the report for an empty result set contains the header block
(target, scan date, total probed, total found) and the explicit
"No results found." line and is never empty; and the result section of any
report is the input results sorted by status code first and URL second. -/
theorem save_report_spec :
    (∀ target scanDate endDate : String, ∀ total : Nat,
      ("Target: " ++ target) ∈ save_report_lines target scanDate total [] endDate
      ∧ ("Scan Date: " ++ scanDate) ∈ save_report_lines target scanDate total [] endDate
      ∧ ("Total URLs Tested: " ++ toString total)
          ∈ save_report_lines target scanDate total [] endDate
      ∧ "Results Found: 0" ∈ save_report_lines target scanDate total [] endDate
      ∧ "No results found." ∈ save_report_lines target scanDate total [] endDate
      ∧ save_report_lines target scanDate total [] endDate ≠ [])
    ∧ (∀ results : List ScanResult,
        (sorted_results results).Pairwise
          (fun a b => a.status < b.status ∨ (a.status = b.status ∧ a.url ≤ b.url))
        ∧ (sorted_results results).Perm results) := by
  constructor
  · intro target scanDate endDate total
    refine ⟨by simp [save_report_lines], by simp [save_report_lines],
      by simp [save_report_lines], ?_, by simp [save_report_lines],
      by simp [save_report_lines]⟩
    have h0 : ("Results Found: 0" : String)
        = "Results Found: " ++ toString (List.length ([] : List ScanResult)) := by decide
    rw [h0]
    simp [save_report_lines]
  · intro results
    constructor
    · have hs := List.sorted_mergeSort resultLe_trans resultLe_total results
      exact hs.imp (fun hab => (resultLe_iff _ _).mp hab)
    · exact List.mergeSort_perm results resultLe

/-- Claim C9: a non-empty extension spec parses to a list whose first
element is the empty extension, and every further element starts with
exactly one dot, however many dots the user typed. -/
theorem parse_extensions_shape (s : String) (h : pyStrip s ≠ "") :
    (parse_extensions s).head? = some ""
    ∧ ∀ e ∈ (parse_extensions s).tail,
        e.data.head? = some '.' ∧ e.data.tail.head? ≠ some '.' := by
  have hbeq : (pyStrip s == "") = false := beq_eq_false_iff_ne.mpr h
  simp only [parse_extensions, hbeq, Bool.false_eq_true, if_false]
  refine ⟨rfl, ?_⟩
  intro e he
  simp only [List.tail_cons, List.mem_map] at he
  obtain ⟨x, hx, rfl⟩ := he
  have hdata : ("." ++ pyLstripDot (pyStrip x)).data
      = '.' :: (pyStrip x).data.dropWhile (· == '.') := by
    rw [String.data_append]
    rfl
  constructor
  · rw [hdata]
    rfl
  · rw [hdata]
    intro hc
    have := head?_dropWhile_false (· == '.') (pyStrip x).data (by simpa using hc)
    simp at this

/-- Witness for C9: the spec `"..php, html"` yields a leading empty
extension and single-dot suffixes. -/
theorem parse_extensions_shape_witness :
    (parse_extensions "..php, html").head? = some ""
    ∧ ((".php" : String).data.head? = some '.'
        ∧ (".php" : String).data.tail.head? ≠ some '.') :=
  ⟨(parse_extensions_shape "..php, html" (by decide)).1,
    (parse_extensions_shape "..php, html" (by decide)).2 ".php" (by decide)⟩

/-- Claim C10: any recorded result whose status is in the include set has
no redirect target, since the `Location` header is only read for
redirect-family statuses. -/
theorem recorded_nonredirect_result_has_no_target (url : String) (r : Response)
    (now : String) (res : ScanResult) (hres : classify url r now = some res)
    (h : res.status ∈ includeCodes) : res.redirect = none := by
  obtain ⟨s, n, loc⟩ := r
  by_cases h1 : s ∈ redirectFamily
  · have h2 : s ∉ includeCodes := fun hin =>
      includeCodes_disjoint_redirectFamily s hin h1
    cases loc with
    | none =>
      simp [classify, if_pos h1, h2] at hres
    | some l =>
      by_cases hb : wildcardBlocked url l = true
      · simp [classify, if_pos h1, hb] at hres
      · rw [Bool.not_eq_true] at hb
        by_cases h3 : s ∈ [301, 302]
        · by_cases hp : urlparsePath l = urlparsePath url
          · simp [classify, if_pos h1, hb, h2, h3, hp] at hres
          · simp only [classify, if_pos h1, hb, if_neg h2, if_pos h3,
              Bool.false_eq_true, if_false] at hres
            rw [if_pos (by simpa using hp)] at hres
            obtain rfl := Option.some_inj.mp hres
            exact absurd h h2
        · simp [classify, if_pos h1, hb, h2, h3] at hres
  · by_cases h2 : s ∈ includeCodes
    · simp only [classify, if_neg h1, if_pos h2] at hres
      simp only [Bool.false_eq_true, if_false] at hres
      obtain rfl := Option.some_inj.mp hres
      rfl
    · by_cases h3 : s ∈ [301, 302]
      · exact absurd (mem_301_302_redirectFamily s h3) h1
      · simp [classify, if_neg h1, h2, h3] at hres

/-- Witness for C10: a recorded 200, probed with a stray `Location`
header, still has no redirect target. -/
theorem recorded_nonredirect_result_has_no_target_witness :
    (ScanResult.mk "http://example.test/a" 200 5 none "ts").redirect = none :=
  recorded_nonredirect_result_has_no_target "http://example.test/a"
    ⟨200, 5, some "http://other.host/"⟩ "ts"
    ⟨"http://example.test/a", 200, 5, none, "ts"⟩ (by decide) (by decide)

end PathHunter
